import Mathlib

/-!
Verification of `tools/merge-from-chromium.py` (Android WebView snapshot tool).

We shallowly embed the decision logic of the script: the dependency-manifest
variable lookup (`_VarImpl.Lookup`), the third-party revision resolver
(`_GetThirdPartyProjectMergeInfo`), the conflict-resolution/commit step
(`_CheckNoConflictsAndCommitMerge`), the exclusion pass and license gate of
`_MergeProjects`, the NOTICE/makefile regeneration steps, the snapshot driver
(`_Snapshot`) and the command-line entry (`main`).

Interaction with git is modelled by an abstract client: a state type `σ`
together with the observations/transitions the script performs (`status`
output as a list of porcelain lines, `rm`, `add`, `commit`, ...).  Functions
additionally return a trace of the git actions they issue, so that "produces
a commit" is directly observable.  Python string values stay `String`;
Python `None`/booleans are modelled by `PyVal`; a raised exception is the
`Except.error` case.
-/

namespace MergeFromChromium

/-- Python values relevant to the script's return conventions.
`_Snapshot` falls off the end of the function (or executes a bare `return`),
so it evaluates to `PyVal.pyNone`; `_MergeProjects` returns `True`. -/
inductive PyVal where
  | pyNone : PyVal
  | pyBool : Bool → PyVal
  deriving DecidableEq, Repr

/-- Python truthiness of a `PyVal` (`None` is falsy). -/
def pyTruthy : PyVal → Bool
  | .pyNone => false
  | .pyBool b => b

/-- `AUTOGEN_MESSAGE` constant from the script. -/
def AUTOGEN_MESSAGE : String := "This commit was generated by merge-from-chromium.py."

/-- `REPOSITORY_ROOT`: the absolute path computed at import time from
`__file__`; modelled as an opaque path constant. -/
def REPOSITORY_ROOT : String := "/android/external/chromium_org"

/-- `THIRD_PARTY_PROJECTS` whitelist from the script. -/
def THIRD_PARTY_PROJECTS : List String := [
  "googleurl",
  "sdch/open-vcdiff",
  "testing/gmock",
  "testing/gtest",
  "third_party/WebKit",
  "third_party/angle",
  "third_party/cacheinvalidation/files/src/google",
  "third_party/freetype",
  "third_party/hunspell",
  "third_party/hunspell_dictionaries",
  "third_party/icu",
  "third_party/leveldatabase/src",
  "third_party/libjingle/source",
  "third_party/libphonenumber/src/phonenumbers",
  "third_party/libphonenumber/src/resources",
  "third_party/libphonenumber/src/test",
  "third_party/openssl",
  "third_party/ots",
  "third_party/pyftpdlib/src",
  "third_party/skia/include",
  "third_party/skia/gyp",
  "third_party/skia/src",
  "third_party/smhasher/src",
  "tools/grit",
  "tools/gyp",
  "v8"]

/-- `ALL_PROJECTS = ['.'] + THIRD_PARTY_PROJECTS`. -/
def ALL_PROJECTS : List String := "." :: THIRD_PARTY_PROJECTS

/-- `os.path.join(a, b)` for POSIX paths as used by the script: an absolute
second component discards the first; otherwise the components are joined
with a single `/` (no extra separator if `a` already ends in one). -/
def osPathJoin (a b : String) : String :=
  if b.data.head? = some '/' then b
  else if a = "" then b
  else if a.data.getLast? = some '/' then a ++ b
  else a ++ "/" ++ b

/-! ### The `(.*?)@(.*)` regular expression

`_GetThirdPartyProjectMergeInfo` runs `re.match('(.*?)@(.*)', url_plus_sha1)`.
`re.match` anchors at the start only, `.` does not match a newline, and the
first group is lazy: group 1 is the shortest newline-free prefix followed by
an `@`, group 2 the longest newline-free run after that `@`.  If a newline
occurs before any `@` (or there is no `@` at all) the match fails, in which
case the script dereferences `None` and raises `AttributeError`. -/

/-- Core of `re.match('(.*?)@(.*)', s)` on the character list of `s`:
split at the first `@` (failing on a preceding newline), then take the
newline-free run after it. -/
def matchUrlRev : List Char → Option (List Char × List Char)
  | [] => none
  | c :: rest =>
    if c = '\n' then none
    else if c = '@' then some ([], rest.takeWhile (fun d => d ≠ '\n'))
    else
      match matchUrlRev rest with
      | some (pre, post) => some (c :: pre, post)
      | none => none

/-- `re.match('(.*?)@(.*)', s)` returning `(group 1, group 2)`:
the `url`/`sha1` split performed by the resolver. -/
def reMatchUrlSha1 (s : String) : Option (String × String) :=
  match matchUrlRev s.data with
  | some (u, r) => some (String.mk u, String.mk r)
  | none => none

/-! ### Revision resolver (`_GetThirdPartyProjectMergeInfo`) -/

/-- The parsed `.DEPS.git` dictionaries consulted by the resolver.
Python dictionaries are modelled as association lists (unique keys in
practice; lookup takes the first binding). -/
structure DepsVars where
  deps : List (String × String)
  deps_os_unix : List (String × String)
  deps_os_android : List (String × String)

/-- `deps_fallback_order` from the script: root `deps`, then
`deps_os['unix']`, then `deps_os['android']`. -/
def depsFallbackOrder (dv : DepsVars) : List (List (String × String)) :=
  [dv.deps, dv.deps_os_unix, dv.deps_os_android]

/-- `deps.get(key)` followed by the script's `if url_plus_sha1:` truthiness
test: a missing key or an entry equal to the empty string does not stop the
fallback search. -/
def dictGetTruthy (m : List (String × String)) (k : String) : Option String :=
  match m.lookup k with
  | some v => if v = "" then none else some v
  | none => none

/-- The inner `for deps in deps_fallback_order: ... break` loop for one
project path: the first truthy `deps.get(os.path.join('src', path))`. -/
def findURLPlusSha1 (dv : DepsVars) (path : String) : Option String :=
  (depsFallbackOrder dv).findSome? (fun deps => dictGetTruthy deps (osPathJoin "src" path))

/-- The message of the `RuntimeError` raised when no fallback source has an
entry for `path`. -/
def missingDepMessage (path : String) : String :=
  "Could not find .DEPS.git entry for project " ++ path ++
  ". This probably means that the project list in snapshot.py needs to be updated."

/-- Exceptions that `_GetThirdPartyProjectMergeInfo` can raise. -/
inductive ResolveError where
  | missingDep : String → ResolveError
  | attributeError : ResolveError
  deriving DecidableEq, Repr

/-- `_GetThirdPartyProjectMergeInfo(third_party_projects, deps_vars)`:
for each project in order, find the first truthy fallback entry (raising
`RuntimeError` with `missingDepMessage` if none), split it with
`re.match('(.*?)@(.*)', ...)` (dereferencing `None` raises
`AttributeError` when the match fails), and record `path: (url, sha1)`. -/
def _GetThirdPartyProjectMergeInfo (third_party_projects : List String)
    (deps_vars : DepsVars) : Except ResolveError (List (String × String × String)) :=
  match third_party_projects with
  | [] => .ok []
  | p :: ps =>
    match findURLPlusSha1 deps_vars p with
    | none => .error (.missingDep (missingDepMessage p))
    | some url_plus_sha1 =>
      match reMatchUrlSha1 url_plus_sha1 with
      | none => .error .attributeError
      | some (url, sha1) =>
        match _GetThirdPartyProjectMergeInfo ps deps_vars with
        | .error e => .error e
        | .ok rest => .ok ((p, url, sha1) :: rest)

/-! ### Manifest variable lookup (`_VarImpl.Lookup`) -/

/-- The state of `_VarImpl`: the caller-supplied `custom_vars` dictionary and
the manifest evaluation scope's optional `vars` dictionary
(`local_scope.get('vars', {})` yields `{}` when absent, i.e. `none` here). -/
structure VarImpl where
  custom_vars : List (String × String)
  local_scope_vars : Option (List (String × String))

/-- `_VarImpl.Lookup(var_name)`: check `custom_vars` first, then the
manifest's `vars`, and raise `Exception('Var is not defined: ...')` when
neither defines the name. -/
def VarImpl.Lookup (v : VarImpl) (var_name : String) : Except String String :=
  match v.custom_vars.lookup var_name with
  | some x => .ok x
  | none =>
    match (v.local_scope_vars.getD []).lookup var_name with
    | some x => .ok x
    | none => .error ("Var is not defined: " ++ var_name)

/-! ### Abstract git client

The script talks to git via `_GetCommandStdout`.  We model a repository
world `σ` with the observations and transitions the script performs.
`status` returns the lines of `git status --porcelain` output for a working
directory (each line is newline-free, as the lines of a string are).
Every state transition the script issues is also recorded in a trace of
`GitAction`s, so that "this step produced a commit" is a statement about
the trace. -/

structure GitClient (σ : Type) where
  status : String → σ → List String
  rm : String → List String → σ → σ
  add : String → List String → σ → σ
  commit : String → String → σ → σ
  write : String → String → σ → σ
  runGyp : σ → σ

/-- Trace of repository-affecting commands issued by a step. -/
inductive GitAction where
  | rm : String → List String → GitAction
  | add : String → List String → GitAction
  | commit : String → String → GitAction
  | write : String → GitAction
  | gyp : GitAction
  deriving DecidableEq, Repr

/-- The `(cwd, message)` pairs of the commits appearing in a trace: the
commits are the only actions that extend repository history. -/
def commitsIn (tr : List GitAction) : List (String × String) :=
  tr.filterMap (fun a => match a with | .commit c m => some (c, m) | _ => none)

/-! ### Conflict handling (`_CheckNoConflictsAndCommitMerge`) -/

/-- `re.findall(r'^(DD|DU) ([^\n]+)$', status, re.MULTILINE)`, keeping
group 2: the paths of "both deleted" / "deleted by us" conflict lines. -/
def deletedByUsFiles (statusLines : List String) : List String :=
  statusLines.filterMap (fun l =>
    if ("DD ".data.isPrefixOf l.data || "DU ".data.isPrefixOf l.data)
        && 3 < l.data.length then
      some (String.mk (l.data.drop 3))
    else none)

/-- `re.findall(r'^((DD|AU|UD|UA|DU|AA|UU) [^\n]+)$', status, re.MULTILINE)`,
keeping group 1: the full unmerged (conflict) status lines. -/
def conflictLines (statusLines : List String) : List String :=
  statusLines.filter (fun l =>
    (["DD", "AU", "UD", "UA", "DU", "AA", "UU"].any
      (fun c => (c ++ " ").data.isPrefixOf l.data)) && 3 < l.data.length)

/-- Result of `_CheckNoConflictsAndCommitMerge`: final repository state, the
files passed to `git rm` in the deleted-by-us pass, how many times the
operator was prompted, and the message of the commit that ends the step. -/
structure CommitMergeResult (σ : Type) where
  state : σ
  removedFiles : List String
  prompts : Nat
  committedMessage : String
  deriving Repr

/-- The `while True` prompt loop: re-read status; stop when no conflict
lines remain, otherwise prompt the operator (who may edit the working tree
while the script blocks, and may type a replacement commit message — an
empty response keeps the current one).  `fuel` bounds the loop so the
function is total; `none` models an operator who never resolves. -/
def commitMergeLoop {σ : Type} (g : GitClient σ) (cwd : String)
    (operator : Nat → σ → σ × String) :
    Nat → Nat → String → σ → Option (Nat × String × σ)
  | 0, _, _, _ => none
  | fuel + 1, n, msg, s =>
    if conflictLines (g.status cwd s) = [] then some (n, msg, s)
    else
      let r := operator n s
      commitMergeLoop g cwd operator fuel (n + 1)
        (if r.2 = "" then msg else r.2) r.1

/-- `_CheckNoConflictsAndCommitMerge(commit_message, cwd)`: remove the
deleted-by-us conflict paths from tracking (when any), loop until the
operator has resolved all remaining conflicts, then commit. -/
def _CheckNoConflictsAndCommitMerge {σ : Type} (g : GitClient σ)
    (operator : Nat → σ → σ × String) (fuel : Nat)
    (commit_message : String) (cwd : String) (s : σ) :
    Option (CommitMergeResult σ) :=
  let dbu := deletedByUsFiles (g.status cwd s)
  let s₁ := if dbu = [] then s else g.rm cwd dbu s
  match commitMergeLoop g cwd operator fuel 0 commit_message s₁ with
  | none => none
  | some (n, msg, s₂) => some ⟨g.commit cwd msg s₂, dbu, n, msg⟩

/-! ### Exclusion pass and license gate (`_MergeProjects`, lines 286-299) -/

/-- `re.search(r'^[MADRC]', status, re.MULTILINE) != None`: whether any
porcelain line begins with a staged-change column letter. -/
def _ModifiedFilesInIndex (statusLines : List String) : Bool :=
  statusLines.any (fun l =>
    match l.data.head? with
    | some c => ['M', 'A', 'D', 'R', 'C'].contains c
    | none => false)

/-- One iteration of the `KNOWN_INCOMPATIBLE` loop: `git rm -rf
--ignore-unmatch` the exclusion patterns inside the sub-project, then commit
`'Exclude incompatible directories'` only if the index has staged changes. -/
def excludeStep {σ : Type} (g : GitClient σ) (pe : String × List String)
    (s : σ) : σ × List GitAction :=
  let s₁ := g.rm pe.1 pe.2 s
  if _ModifiedFilesInIndex (g.status pe.1 s₁) then
    (g.commit pe.1 "Exclude incompatible directories" s₁,
     [.rm pe.1 pe.2, .commit pe.1 "Exclude incompatible directories"])
  else (s₁, [.rm pe.1 pe.2])

/-- The whole `KNOWN_INCOMPATIBLE` exclusion loop. -/
def excludePass {σ : Type} (g : GitClient σ) :
    List (String × List String) → σ → σ × List GitAction
  | [], s => (s, [])
  | pe :: rest, s =>
    let r₁ := excludeStep g pe s
    let r₂ := excludePass g rest r₁.1
    (r₂.1, r₁.2 ++ r₂.2)

/-- Message of the `RuntimeError` raised when incompatibly licensed
directories remain after the exclusion pass. -/
def incompatibleLicenseMessage (dirs : List String) : String :=
  "Incompatibly licensed directories remain: " ++ String.intercalate "\n" dirs

/-- The tail of `_MergeProjects`: apply the exclusion pass, ask the license
scanner (`webview_licenses.GetIncompatibleDirectories()`, modelled as an
observation of the repository state) for remaining incompatible directories,
raise if any remain, and otherwise return `True`. -/
def mergeProjectsFinal {σ : Type} (g : GitClient σ)
    (known_incompatible : List (String × List String))
    (scanner : σ → List String) (s : σ) :
    Except String (Bool × σ × List GitAction) :=
  let r := excludePass g known_incompatible s
  let directories_left_over := scanner r.1
  if directories_left_over ≠ [] then
    .error (incompatibleLicenseMessage directories_left_over)
  else .ok (true, r.1, r.2)

/-! ### NOTICE and makefile regeneration -/

/-- `_GenerateNoticeFile(svn_revision)`: write the NOTICE file (contents
produced by the license generator from the current tree), `git add` it, and
commit only if the index has staged changes. -/
def _GenerateNoticeFile {σ : Type} (g : GitClient σ) (svn_revision : String)
    (noticeContents : σ → String) (s : σ) : σ × List GitAction :=
  let s₁ := g.write "NOTICE" (noticeContents s) s
  let s₂ := g.add REPOSITORY_ROOT ["NOTICE"] s₁
  let msg := "Update NOTICE file after merge of Chromium at r" ++ svn_revision
    ++ "\n\n" ++ AUTOGEN_MESSAGE
  if _ModifiedFilesInIndex (g.status REPOSITORY_ROOT s₂) then
    (g.commit REPOSITORY_ROOT msg s₂,
     [.write "NOTICE", .add REPOSITORY_ROOT ["NOTICE"], .commit REPOSITORY_ROOT msg])
  else (s₂, [.write "NOTICE", .add REPOSITORY_ROOT ["NOTICE"]])

/-- The makefile-commit message for a given SVN revision. -/
def makefileCommitMessage (svn_revision : String) : String :=
  "Update makefiles after merge of Chromium at r" ++ svn_revision
    ++ "\n\n" ++ AUTOGEN_MESSAGE

/-- One iteration of the second `ALL_PROJECTS` loop of `_GenerateMakefiles`:
force-add the generated makefile patterns, then commit only if the index has
staged changes. -/
def makefileStep {σ : Type} (g : GitClient σ) (svn_revision : String)
    (path : String) (s : σ) : σ × List GitAction :=
  let dest := osPathJoin REPOSITORY_ROOT path
  let s₁ := g.add dest ["GypAndroid.mk"] s
  let s₂ := g.add dest ["*.target.mk"] s₁
  let s₃ := g.add dest ["*.host.mk"] s₂
  let s₄ := g.add dest ["*.tmp"] s₃
  let adds : List GitAction :=
    [.add dest ["GypAndroid.mk"], .add dest ["*.target.mk"],
     .add dest ["*.host.mk"], .add dest ["*.tmp"]]
  if _ModifiedFilesInIndex (g.status dest s₄) then
    (g.commit dest (makefileCommitMessage svn_revision) s₄,
     adds ++ [.commit dest (makefileCommitMessage svn_revision)])
  else (s₄, adds)

/-- The second `ALL_PROJECTS` loop of `_GenerateMakefiles`. -/
def makefileAddCommitPass {σ : Type} (g : GitClient σ) (svn_revision : String) :
    List String → σ → σ × List GitAction
  | [], s => (s, [])
  | p :: ps, s =>
    let r₁ := makefileStep g svn_revision p s
    let r₂ := makefileAddCommitPass g svn_revision ps r₁.1
    (r₂.1, r₁.2 ++ r₂.2)

/-- `_GenerateMakefiles(svn_revision)`: remove stale generated makefiles in
every project, run the gyp generator, then re-add and conditionally commit
per project. -/
def _GenerateMakefiles {σ : Type} (g : GitClient σ) (svn_revision : String)
    (s : σ) : σ × List GitAction :=
  let rmPatterns := ["GypAndroid.mk", "*.target.mk", "*.host.mk", "*.tmp"]
  let s₀ := ALL_PROJECTS.foldl
    (fun st p => g.rm (osPathJoin REPOSITORY_ROOT p) rmPatterns st) s
  let rmTrace : List GitAction :=
    ALL_PROJECTS.map (fun p => .rm (osPathJoin REPOSITORY_ROOT p) rmPatterns)
  let s₁ := g.runGyp s₀
  let r := makefileAddCommitPass g svn_revision ALL_PROJECTS s₁
  (r.1, rmTrace ++ [.gyp] ++ r.2)

/-! ### Snapshot driver (`_Snapshot`) and entry point (`main`) -/

/-- Collaborators of `_Snapshot`, abstracted: the SVN-revision/SHA1
resolution (`_GetSVNRevisionAndSHA1`, an observation of upstream), the
stdout of `git rev-list -1 <range>`, and the three pipeline steps, each of
which may raise (the `Except.error` case) and otherwise yields the new
state plus the trace of git actions it issued. -/
structure SnapWorld (σ : Type) where
  getSVN : String → String → Option String → σ → String × String
  revList : String → σ → String
  mergeProjects : String → String → String → String → σ →
    Except String (σ × List GitAction)
  generateNoticeFile : String → σ → Except String (σ × List GitAction)
  generateMakefiles : String → σ → Except String (σ × List GitAction)

/-- `_Snapshot(git_url, git_branch, svn_revision)`: resolve the target
`(svn_revision, root_sha1)`; if `git rev-list -1 HEAD..root_sha1` prints
nothing, log and return (a bare `return`, i.e. `None`) touching nothing;
otherwise run merge, NOTICE regeneration and makefile regeneration in
order.  The function body has no `return <value>` statement, so on success
it always evaluates to Python `None`. -/
def _Snapshot {σ : Type} (w : SnapWorld σ) (git_url git_branch : String)
    (svn_revision : Option String) (s : σ) :
    Except String (PyVal × σ × List GitAction) :=
  let r := w.getSVN git_url git_branch svn_revision s
  let root_sha1 := r.2
  if w.revList ("HEAD.." ++ root_sha1) s = "" then
    .ok (PyVal.pyNone, s, [])
  else
    match w.mergeProjects git_url git_branch r.1 root_sha1 s with
    | .error e => .error e
    | .ok (s₁, t₁) =>
      match w.generateNoticeFile r.1 s₁ with
      | .error e => .error e
      | .ok (s₂, t₂) =>
        match w.generateMakefiles r.1 s₂ with
        | .error e => .error e
        | .ok (s₃, t₃) => .ok (PyVal.pyNone, s₃, t₁ ++ t₂ ++ t₃)

/-- `main()`: return 1 when positional arguments were supplied, or when
`ANDROID_BUILD_TOP` is absent from the environment; otherwise run
`_Snapshot` and return 1 when its value is falsy, 0 otherwise.  An
exception raised by `_Snapshot` propagates (the `Except.error` case). -/
def main {σ : Type} (w : SnapWorld σ) (args : List String)
    (env_has_android_build_top : Bool) (git_url git_branch : String)
    (svn_revision : Option String) (s : σ) : Except String Nat :=
  if args ≠ [] then .ok 1
  else if ¬ env_has_android_build_top then .ok 1
  else
    match _Snapshot w git_url git_branch svn_revision s with
    | .error e => .error e
    | .ok (v, _, _) => if pyTruthy v then .ok 0 else .ok 1

/-! ### Auxiliary definitions for the statements -/

/-- Modelled from the spec: "Each found entry is a single string of the form
`url@revision`; split on the last `@` to get `(url, revision)`."  Used only
to compare the spec's described split with the one the code performs. -/
def splitOnLastAtSpec (s : String) : Option (String × String) :=
  if '@' ∈ s.data then
    some (String.mk ((s.data.reverse.dropWhile (fun c => c ≠ '@')).drop 1).reverse,
          String.mk ((s.data.reverse.takeWhile (fun c => c ≠ '@')).reverse))
  else none

/-- A concrete upstream world in which the resolved target commit introduces
no new history (`git rev-list -1 HEAD..sha1` prints nothing): `_Snapshot`
takes its no-op branch. -/
def quietWorld : SnapWorld Unit where
  getSVN := fun _ _ _ _ => ("156273", "c6bbd7a1f42d3d2a2d67c1ca3f56b05a5b1de24a")
  revList := fun _ _ => ""
  mergeProjects := fun _ _ _ _ _ => .ok ((), [])
  generateNoticeFile := fun _ _ => .ok ((), [])
  generateMakefiles := fun _ _ => .ok ((), [])

/-- A concrete client over `Unit` whose status output never contains a
staged-change line (only an untracked-file line). -/
def quietClient : GitClient Unit where
  status := fun _ _ => ["?? untracked"]
  rm := fun _ _ s => s
  add := fun _ _ s => s
  commit := fun _ _ s => s
  write := fun _ _ s => s
  runGyp := fun s => s

/-- A concrete client whose state is the list of porcelain status lines
itself and whose `git rm` clears them (the deletion is staged, so nothing
conflicted remains). -/
def wipeClient : GitClient (List String) where
  status := fun _ s => s
  rm := fun _ _ _ => []
  add := fun _ _ s => s
  commit := fun _ _ s => s
  write := fun _ _ s => s
  runGyp := fun s => s

/-! ## Theorems -/

/-- `takeWhile (≠ newline)` keeps a newline-free list intact. -/
theorem takeWhile_ne_newline (l : List Char) (h : '\n' ∉ l) :
    l.takeWhile (fun d => d ≠ '\n') = l := by
  rw [List.takeWhile_eq_self_iff]
  intro a ha
  simp only [ne_eq, decide_eq_true_eq]
  intro hc
  exact h (hc ▸ ha)

/-- The lazy match splits exactly at the first `@` when the prefix is
`@`-free and no newline interferes. -/
theorem matchUrlRev_append (pre post : List Char)
    (hat : '@' ∉ pre) (hnl : '\n' ∉ pre) (hpost : '\n' ∉ post) :
    matchUrlRev (pre ++ '@' :: post) = some (pre, post) := by
  induction pre with
  | nil =>
    show matchUrlRev ('@' :: post) = some ([], post)
    unfold matchUrlRev
    rw [if_neg (by decide), if_pos rfl, takeWhile_ne_newline post hpost]
  | cons c cs ih =>
    simp only [List.mem_cons, not_or] at hat hnl
    rw [List.cons_append]
    unfold matchUrlRev
    rw [if_neg (fun h => hnl.1 h.symm), if_neg (fun h => hat.1 h.symm),
      ih hat.2 hnl.2]

/-- On a newline-free list containing an `@`, the match succeeds, the two
groups reassemble to the input, and the first group is `@`-free. -/
theorem matchUrlRev_roundtrip (l : List Char) (hat : '@' ∈ l)
    (hnl : '\n' ∉ l) :
    ∃ u r, matchUrlRev l = some (u, r) ∧ u ++ '@' :: r = l ∧ '@' ∉ u := by
  induction l with
  | nil => cases hat
  | cons c cs ih =>
    simp only [List.mem_cons, not_or] at hnl
    by_cases hc : c = '@'
    · subst hc
      refine ⟨[], cs, ?_, rfl, by simp⟩
      unfold matchUrlRev
      rw [if_neg (by decide), if_pos rfl, takeWhile_ne_newline cs hnl.2]
    · have hat' : '@' ∈ cs := by
        rcases List.mem_cons.mp hat with h | h
        · exact absurd h.symm hc
        · exact h
      obtain ⟨u, r, h₁, h₂, h₃⟩ := ih hat' hnl.2
      refine ⟨c :: u, r, ?_, by rw [List.cons_append, h₂], ?_⟩
      · unfold matchUrlRev
        rw [if_neg (fun h => hnl.1 h.symm), if_neg hc, h₁]
      · simp only [List.mem_cons, not_or]
        exact ⟨fun h => hc h.symm, h₃⟩

/-- C3 counterexample: the claim says the resolver splits on the *last*
`@`.  On `"a@b@c"` the code's `re.match('(.*?)@(.*)', ...)` yields
`("a", "b@c")` (first `@`), while a last-`@` split yields `("a@b", "c")`:
the two disagree, so the claim as stated is false. -/
theorem resolver_split_last_counterexample :
    reMatchUrlSha1 "a@b@c" = some ("a", "b@c") ∧
    splitOnLastAtSpec "a@b@c" = some ("a@b", "c") ∧
    reMatchUrlSha1 "a@b@c" ≠ splitOnLastAtSpec "a@b@c" := by
  refine ⟨by decide, by decide, by decide⟩

/-- C3 (amended): for every found dependency entry string, the resolver
splits the string on the *first* `@` character (within the first line) to
obtain the `(url, revision)` pair; in particular splitting
`"https://example/repo@deadbeef"` yields url `"https://example/repo"` and
revision `"deadbeef"`. -/
theorem resolver_splits_on_first_at (pre post : String)
    (hat : '@' ∉ pre.data) (hnl : '\n' ∉ pre.data)
    (hpost : '\n' ∉ post.data) :
    reMatchUrlSha1 (pre ++ "@" ++ post) = some (pre, post) ∧
    reMatchUrlSha1 "https://example/repo@deadbeef" =
      some ("https://example/repo", "deadbeef") := by
  constructor
  · have hd : (pre ++ "@" ++ post).data = pre.data ++ '@' :: post.data := by
      show (pre.data ++ ['@']) ++ post.data = pre.data ++ '@' :: post.data
      rw [List.append_assoc]
      rfl
    unfold reMatchUrlSha1
    rw [hd, matchUrlRev_append pre.data post.data hat hnl hpost]
  · decide

/-- Witness for `resolver_splits_on_first_at` at
`pre = "https://u/icu"`, `post = "abc123"`. -/
theorem resolver_splits_on_first_at_witness :
    reMatchUrlSha1 ("https://u/icu" ++ "@" ++ "abc123") =
      some ("https://u/icu", "abc123") ∧
    reMatchUrlSha1 "https://example/repo@deadbeef" =
      some ("https://example/repo", "deadbeef") :=
  resolver_splits_on_first_at "https://u/icu" "abc123"
    (by decide) (by decide) (by decide)

/-- C9 counterexample: the round-trip equation fails for an entry string
containing a newline after the `@`: `.` in the pattern does not match a
newline, so group 2 stops at the newline and `url ++ "@" ++ sha1` is a
strict truncation of the input. -/
theorem resolver_roundtrip_newline_counterexample :
    '@' ∈ ("a@b\nc" : String).data ∧
    reMatchUrlSha1 "a@b\nc" = some ("a", "b") ∧
    "a" ++ "@" ++ "b" ≠ ("a@b\nc" : String) := by
  refine ⟨by decide, by decide, by decide⟩

/-- C9 (amended): for every newline-free dependency entry string containing
at least one `@`, the `(url, sha1)` pair produced by the resolver's split
satisfies `url ++ "@" ++ sha1 = original` and the url component contains no
`@` character. -/
theorem resolver_split_roundtrip (s : String) (hat : '@' ∈ s.data)
    (hnl : '\n' ∉ s.data) :
    ∃ url sha1, reMatchUrlSha1 s = some (url, sha1) ∧
      url ++ "@" ++ sha1 = s ∧ '@' ∉ url.data := by
  obtain ⟨u, r, h₁, h₂, h₃⟩ := matchUrlRev_roundtrip s.data hat hnl
  refine ⟨String.mk u, String.mk r, ?_, ?_, h₃⟩
  · unfold reMatchUrlSha1
    rw [h₁]
  · apply String.ext
    show (u ++ ['@']) ++ r = s.data
    rw [List.append_assoc, List.singleton_append, h₂]

/-- Witness for `resolver_split_roundtrip` at `"https://u/icu@abc123"`. -/
theorem resolver_split_roundtrip_witness :
    ∃ url sha1, reMatchUrlSha1 "https://u/icu@abc123" = some (url, sha1) ∧
      url ++ "@" ++ sha1 = "https://u/icu@abc123" ∧ '@' ∉ url.data :=
  resolver_split_roundtrip "https://u/icu@abc123" (by decide) (by decide)

/-- C2 counterexample: the fallback search does not return the entry of the
first source that *defines* the path — it returns the first *truthy* entry
(`if url_plus_sha1:`).  With `deps['src/p'] = ''` and
`deps_os['android']['src/p'] = 'u@r'` (both defined, differing values), the
resolver returns the android value, not the deps value. -/
theorem resolver_fallback_defined_counterexample :
    (DepsVars.mk [("src/p", "")] [] [("src/p", "u@r")]).deps.lookup "src/p" =
      some "" ∧
    (DepsVars.mk [("src/p", "")] [] [("src/p", "u@r")]).deps_os_android.lookup
      "src/p" = some "u@r" ∧
    ("" : String) ≠ "u@r" ∧
    findURLPlusSha1 (DepsVars.mk [("src/p", "")] [] [("src/p", "u@r")]) "p" =
      some "u@r" := by
  refine ⟨by decide, by decide, by decide, by decide⟩

/-- C2 (amended): the resolver searches root `deps`, then the `unix`
override, then the `android` override, each keyed by the path prefixed with
`src`, and returns the entry of the first source that defines the path with
a non-empty (truthy) value; in particular, when a path is defined with
differing non-empty values in both `deps` and `deps_os['android']`, the
`deps` value is returned. -/
theorem resolver_fallback_order (dv : DepsVars) (p : String)
    (hrel : p.data.head? ≠ some '/') :
    osPathJoin "src" p = "src/" ++ p ∧
    (∀ v, dictGetTruthy dv.deps (osPathJoin "src" p) = some v →
      findURLPlusSha1 dv p = some v) ∧
    (dictGetTruthy dv.deps (osPathJoin "src" p) = none →
      ∀ v, dictGetTruthy dv.deps_os_unix (osPathJoin "src" p) = some v →
        findURLPlusSha1 dv p = some v) ∧
    (dictGetTruthy dv.deps (osPathJoin "src" p) = none →
      dictGetTruthy dv.deps_os_unix (osPathJoin "src" p) = none →
        findURLPlusSha1 dv p =
          dictGetTruthy dv.deps_os_android (osPathJoin "src" p)) ∧
    (∀ v w, dictGetTruthy dv.deps (osPathJoin "src" p) = some v →
      dictGetTruthy dv.deps_os_android (osPathJoin "src" p) = some w →
      v ≠ w → findURLPlusSha1 dv p = some v) := by
  have hjoin : osPathJoin "src" p = "src/" ++ p := by
    unfold osPathJoin
    rw [if_neg hrel, if_neg (by decide), if_neg (by decide)]
    rfl
  refine ⟨hjoin, ?_, ?_, ?_, ?_⟩
  · intro v hv
    unfold findURLPlusSha1 depsFallbackOrder
    rw [List.findSome?_cons, hv]
  · intro h₀ v hv
    unfold findURLPlusSha1 depsFallbackOrder
    rw [List.findSome?_cons, h₀, List.findSome?_cons, hv]
  · intro h₀ h₁
    unfold findURLPlusSha1 depsFallbackOrder
    rw [List.findSome?_cons, h₀, List.findSome?_cons, h₁, List.findSome?_cons]
    cases h₂ : dictGetTruthy dv.deps_os_android (osPathJoin "src" p) with
    | none => rfl
    | some w => rfl
  · intro v w hv _ _
    unfold findURLPlusSha1 depsFallbackOrder
    rw [List.findSome?_cons, hv]

/-- Witness for `resolver_fallback_order`: with
`deps['src/p'] = 'u@r'` and `deps_os['android']['src/p'] = 'x@y'`, the
`deps` value wins. -/
theorem resolver_fallback_order_witness :
    findURLPlusSha1 (DepsVars.mk [("src/p", "u@r")] [] [("src/p", "x@y")])
      "p" = some "u@r" ∧
    osPathJoin "src" "p" = "src/" ++ "p" :=
  ⟨(resolver_fallback_order
      (DepsVars.mk [("src/p", "u@r")] [] [("src/p", "x@y")]) "p"
      (by decide)).2.2.2.2 "u@r" "x@y" (by decide) (by decide) (by decide),
   (resolver_fallback_order
      (DepsVars.mk [("src/p", "u@r")] [] [("src/p", "x@y")]) "p"
      (by decide)).1⟩

/-- C4: a requested path whose `src`-prefixed key is absent from all three
sources (while every earlier project resolves and splits) makes
`_GetThirdPartyProjectMergeInfo` raise the `RuntimeError` whose message
names that exact path, and no result mapping is produced. -/
theorem resolver_missing_dependency (dv : DepsVars) (pre : List String)
    (p : String) (ps : List String)
    (hpre : ∀ q ∈ pre, ∃ e u r, findURLPlusSha1 dv q = some e ∧
      reMatchUrlSha1 e = some (u, r))
    (h₁ : dv.deps.lookup (osPathJoin "src" p) = none)
    (h₂ : dv.deps_os_unix.lookup (osPathJoin "src" p) = none)
    (h₃ : dv.deps_os_android.lookup (osPathJoin "src" p) = none) :
    _GetThirdPartyProjectMergeInfo (pre ++ p :: ps) dv =
      .error (.missingDep (missingDepMessage p)) ∧
    (∃ a b, missingDepMessage p = a ++ p ++ b) := by
  constructor
  · have hfind : findURLPlusSha1 dv p = none := by
      unfold findURLPlusSha1 depsFallbackOrder dictGetTruthy
      rw [List.findSome?_cons, h₁, List.findSome?_cons, h₂,
        List.findSome?_cons, h₃]
      rfl
    induction pre with
    | nil =>
      rw [List.nil_append]
      unfold _GetThirdPartyProjectMergeInfo
      rw [hfind]
    | cons q qs ih =>
      obtain ⟨e, u, r, he, hm⟩ := hpre q (List.mem_cons_self q qs)
      rw [List.cons_append]
      unfold _GetThirdPartyProjectMergeInfo
      simp only [he, hm, ih (fun x hx => hpre x (List.mem_cons_of_mem q hx))]
  · exact ⟨"Could not find .DEPS.git entry for project ",
      ". This probably means that the project list in snapshot.py needs to be updated.",
      rfl⟩

/-- Witness for `resolver_missing_dependency`: project list
`["good", "bad"]` where `good` resolves and `bad` is absent everywhere. -/
theorem resolver_missing_dependency_witness :
    _GetThirdPartyProjectMergeInfo ["good", "bad"]
      (DepsVars.mk [("src/good", "g@1")] [] []) =
      .error (.missingDep (missingDepMessage "bad")) ∧
    (∃ a b, missingDepMessage "bad" = a ++ "bad" ++ b) :=
  resolver_missing_dependency (DepsVars.mk [("src/good", "g@1")] [] [])
    ["good"] "bad" []
    (fun q hq => by
      rw [List.mem_singleton.mp hq]
      exact ⟨"g@1", "g", "1", by decide, by decide⟩)
    (by decide) (by decide) (by decide)

/-- C8: `_VarImpl.Lookup` consults the caller-supplied `custom_vars` first,
then the manifest's `vars` mapping, returning the first value found; when
neither defines the name it raises an error whose message names the
variable. -/
theorem var_lookup_order (v : VarImpl) (name : String) :
    (∀ x, v.custom_vars.lookup name = some x → v.Lookup name = .ok x) ∧
    (v.custom_vars.lookup name = none →
      ∀ x, (v.local_scope_vars.getD []).lookup name = some x →
        v.Lookup name = .ok x) ∧
    (v.custom_vars.lookup name = none →
      (v.local_scope_vars.getD []).lookup name = none →
        v.Lookup name = .error ("Var is not defined: " ++ name)) ∧
    (∃ a, "Var is not defined: " ++ name = a ++ name) := by
  refine ⟨?_, ?_, ?_, ⟨"Var is not defined: ", rfl⟩⟩
  · intro x hx
    unfold VarImpl.Lookup
    rw [hx]
  · intro h₀ x hx
    unfold VarImpl.Lookup
    rw [h₀, hx]
  · intro h₀ h₁
    unfold VarImpl.Lookup
    rw [h₀, h₁]

/-- Witness for `var_lookup_order`: `custom_vars` wins over `vars` for
`webkit_rev`, and an undefined name raises the naming error. -/
theorem var_lookup_order_witness :
    (VarImpl.mk [("webkit_rev", "r1")]
      (some [("webkit_rev", "r2")])).Lookup "webkit_rev" = .ok "r1" ∧
    (VarImpl.mk [] none).Lookup "missing" =
      .error ("Var is not defined: " ++ "missing") :=
  ⟨(var_lookup_order (VarImpl.mk [("webkit_rev", "r1")]
      (some [("webkit_rev", "r2")])) "webkit_rev").1 "r1" (by decide),
   (var_lookup_order (VarImpl.mk [] none) "missing").2.2.1
      (by decide) (by decide)⟩

/-- C6: a status report whose sole conflict entry is "deleted by us" for a
file `F` that `git rm` then resolves makes `_CheckNoConflictsAndCommitMerge`
remove `F` from tracking and commit the default message with zero operator
prompts. -/
theorem conflict_deleted_by_us_autoresolved {σ : Type} (g : GitClient σ)
    (operator : Nat → σ → σ × String) (fuel : Nat)
    (commit_message cwd F : String) (s : σ)
    (hdbu : deletedByUsFiles (g.status cwd s) = [F])
    (_honly : conflictLines (g.status cwd s) = ["DU " ++ F])
    (hresolved : conflictLines (g.status cwd (g.rm cwd [F] s)) = []) :
    _CheckNoConflictsAndCommitMerge g operator (fuel + 1) commit_message cwd
      s =
      some ⟨g.commit cwd commit_message (g.rm cwd [F] s), [F], 0,
        commit_message⟩ := by
  simp only [_CheckNoConflictsAndCommitMerge, hdbu, commitMergeLoop,
    hresolved, List.cons_ne_nil, ite_false, if_pos, reduceIte]

/-- Witness for `conflict_deleted_by_us_autoresolved`: one
`DU third_party/foo` conflict line, auto-resolved and committed with no
prompt. -/
theorem conflict_deleted_by_us_autoresolved_witness :
    _CheckNoConflictsAndCommitMerge wipeClient (fun _ s => (s, "")) 1
      "Merge Chromium" "d" ["DU third_party/foo"] =
      some ⟨[], ["third_party/foo"], 0, "Merge Chromium"⟩ :=
  conflict_deleted_by_us_autoresolved wipeClient (fun _ s => (s, "")) 0
    "Merge Chromium" "d" "third_party/foo" ["DU third_party/foo"]
    (by decide) (by decide) (by decide)

/-- C7: after the exclusion pass, a non-empty license-scanner report makes
the merge step raise the error carrying the full offending path list, and
an empty report lets it return `True`. -/
theorem license_gate {σ : Type} (g : GitClient σ)
    (known_incompatible : List (String × List String))
    (scanner : σ → List String) (s : σ) :
    (scanner (excludePass g known_incompatible s).1 ≠ [] →
      mergeProjectsFinal g known_incompatible scanner s =
        .error (incompatibleLicenseMessage
          (scanner (excludePass g known_incompatible s).1))) ∧
    (scanner (excludePass g known_incompatible s).1 = [] →
      mergeProjectsFinal g known_incompatible scanner s =
        .ok (true, (excludePass g known_incompatible s).1,
          (excludePass g known_incompatible s).2)) := by
  constructor
  · intro h
    simp only [mergeProjectsFinal]
    rw [if_pos h]
  · intro h
    simp only [mergeProjectsFinal]
    rw [if_neg (fun hh => hh h)]

/-- Witness for `license_gate`: a scanner reporting one leftover directory
triggers the fatal error with that directory in the message. -/
theorem license_gate_witness :
    mergeProjectsFinal quietClient [] (fun _ => ["third_party/foo"]) () =
      .error (incompatibleLicenseMessage ["third_party/foo"]) :=
  (license_gate quietClient [] (fun _ => ["third_party/foo"]) ()).1
    (by decide)

/-- `commitsIn` distributes over trace concatenation. -/
theorem commitsIn_append (t₁ t₂ : List GitAction) :
    commitsIn (t₁ ++ t₂) = commitsIn t₁ ++ commitsIn t₂ := by
  unfold commitsIn
  rw [List.filterMap_append]

/-- A trace made only of `rm` actions contains no commit. -/
theorem commitsIn_map_rm (ps : List String) (fl : List String)
    (f : String → String) :
    commitsIn (ps.map (fun p => GitAction.rm (f p) fl)) = [] := by
  induction ps with
  | nil => rfl
  | cons p rest ih => exact ih

/-- When the index never reports staged changes, the exclusion pass commits
nothing. -/
theorem excludePass_quiet {σ : Type} (g : GitClient σ)
    (hq : ∀ cwd s, _ModifiedFilesInIndex (g.status cwd s) = false)
    (ki : List (String × List String)) (s : σ) :
    commitsIn (excludePass g ki s).2 = [] := by
  induction ki generalizing s with
  | nil => rfl
  | cons pe rest ih =>
    show commitsIn ((excludeStep g pe s).2 ++
      (excludePass g rest (excludeStep g pe s).1).2) = []
    rw [commitsIn_append, ih]
    have hstep : commitsIn (excludeStep g pe s).2 = [] := by
      simp only [excludeStep, hq]
      simp [commitsIn]
    rw [hstep]
    rfl

/-- When the index never reports staged changes, the makefile add/commit
loop commits nothing. -/
theorem makefilePass_quiet {σ : Type} (g : GitClient σ)
    (hq : ∀ cwd s, _ModifiedFilesInIndex (g.status cwd s) = false)
    (rev : String) (ps : List String) (s : σ) :
    commitsIn (makefileAddCommitPass g rev ps s).2 = [] := by
  induction ps generalizing s with
  | nil => rfl
  | cons p rest ih =>
    show commitsIn ((makefileStep g rev p s).2 ++
      (makefileAddCommitPass g rev rest (makefileStep g rev p s).1).2) = []
    rw [commitsIn_append, ih]
    have hstep : commitsIn (makefileStep g rev p s).2 = [] := by
      simp only [makefileStep, hq]
      simp [commitsIn]
    rw [hstep]
    rfl

/-- C10: the exclusion-pass, NOTICE-file and makefile-regeneration steps
each commit exactly when `git status --porcelain` shows a staged change
(a line starting with `M`, `A`, `D`, `R` or `C`) at the check point; with a
status that never reports staged changes, the exclusion pass and the whole
makefile regeneration leave history untouched (no commit in the trace). -/
theorem regeneration_commits_gated_by_index {σ : Type} (g : GitClient σ) :
    (∀ pe s, commitsIn (excludeStep g pe s).2 =
      (if _ModifiedFilesInIndex (g.status pe.1 (g.rm pe.1 pe.2 s)) then
        [(pe.1, "Exclude incompatible directories")] else [])) ∧
    (∀ rev nc s, commitsIn (_GenerateNoticeFile g rev nc s).2 =
      (if _ModifiedFilesInIndex (g.status REPOSITORY_ROOT
          (g.add REPOSITORY_ROOT ["NOTICE"] (g.write "NOTICE" (nc s) s))) then
        [(REPOSITORY_ROOT,
          "Update NOTICE file after merge of Chromium at r" ++ rev ++ "\n\n"
            ++ AUTOGEN_MESSAGE)] else [])) ∧
    (∀ rev p s, commitsIn (makefileStep g rev p s).2 =
      (if _ModifiedFilesInIndex (g.status (osPathJoin REPOSITORY_ROOT p)
          (g.add (osPathJoin REPOSITORY_ROOT p) ["*.tmp"]
            (g.add (osPathJoin REPOSITORY_ROOT p) ["*.host.mk"]
              (g.add (osPathJoin REPOSITORY_ROOT p) ["*.target.mk"]
                (g.add (osPathJoin REPOSITORY_ROOT p) ["GypAndroid.mk"]
                  s))))) then
        [(osPathJoin REPOSITORY_ROOT p, makefileCommitMessage rev)]
        else [])) ∧
    ((∀ cwd s, _ModifiedFilesInIndex (g.status cwd s) = false) →
      ∀ ki rev s, commitsIn (excludePass g ki s).2 = [] ∧
        commitsIn (_GenerateMakefiles g rev s).2 = []) := by
  refine ⟨?_, ?_, ?_, ?_⟩
  · intro pe s
    by_cases h : _ModifiedFilesInIndex (g.status pe.1 (g.rm pe.1 pe.2 s))
    · simp [excludeStep, h, commitsIn]
    · simp [excludeStep, h, commitsIn]
  · intro rev nc s
    by_cases h : _ModifiedFilesInIndex (g.status REPOSITORY_ROOT
        (g.add REPOSITORY_ROOT ["NOTICE"] (g.write "NOTICE" (nc s) s)))
    · simp [_GenerateNoticeFile, h, commitsIn]
    · simp [_GenerateNoticeFile, h, commitsIn]
  · intro rev p s
    by_cases h : _ModifiedFilesInIndex (g.status (osPathJoin REPOSITORY_ROOT p)
        (g.add (osPathJoin REPOSITORY_ROOT p) ["*.tmp"]
          (g.add (osPathJoin REPOSITORY_ROOT p) ["*.host.mk"]
            (g.add (osPathJoin REPOSITORY_ROOT p) ["*.target.mk"]
              (g.add (osPathJoin REPOSITORY_ROOT p) ["GypAndroid.mk"] s)))))
    · simp [makefileStep, h, commitsIn]
    · simp [makefileStep, h, commitsIn]
  · intro hq ki rev s
    refine ⟨excludePass_quiet g hq ki s, ?_⟩
    show commitsIn ((ALL_PROJECTS.map
        (fun p => GitAction.rm (osPathJoin REPOSITORY_ROOT p)
          ["GypAndroid.mk", "*.target.mk", "*.host.mk", "*.tmp"]))
        ++ [GitAction.gyp]
        ++ (makefileAddCommitPass g rev ALL_PROJECTS
            (g.runGyp (ALL_PROJECTS.foldl
              (fun st p => g.rm (osPathJoin REPOSITORY_ROOT p)
                ["GypAndroid.mk", "*.target.mk", "*.host.mk", "*.tmp"] st)
              s))).2) = []
    rw [commitsIn_append, commitsIn_append, commitsIn_map_rm,
      makefilePass_quiet g hq]
    rfl

/-- Witness for `regeneration_commits_gated_by_index` on the quiet client:
no staged changes, so no commits anywhere. -/
theorem regeneration_commits_gated_by_index_witness :
    commitsIn (excludeStep quietClient ("third_party/foo", ["bar"]) ()).2 =
      (if _ModifiedFilesInIndex (quietClient.status "third_party/foo"
          (quietClient.rm "third_party/foo" ["bar"] ())) then
        [("third_party/foo", "Exclude incompatible directories")] else []) ∧
    commitsIn (excludePass quietClient [("third_party/foo", ["bar"])] ()).2 =
      [] ∧
    commitsIn (_GenerateMakefiles quietClient "156273" ()).2 = [] :=
  ⟨(regeneration_commits_gated_by_index quietClient).1
      ("third_party/foo", ["bar"]) (),
   ((regeneration_commits_gated_by_index quietClient).2.2.2
      (fun _ _ => rfl) [("third_party/foo", ["bar"])] "156273" ()).1,
   ((regeneration_commits_gated_by_index quietClient).2.2.2
      (fun _ _ => rfl) [("third_party/foo", ["bar"])] "156273" ()).2⟩

/-- C5: when the resolved target commit introduces no new history beyond
the current local head (`git rev-list -1 HEAD..sha1` prints nothing),
`_Snapshot` returns successfully touching nothing — no commits, unchanged
state — so re-running the snapshot against an unchanged upstream is a
no-op. -/
theorem snapshot_noop_on_no_new_history {σ : Type} (w : SnapWorld σ)
    (git_url git_branch : String) (svn_revision : Option String) (s : σ)
    (h : w.revList
      ("HEAD.." ++ (w.getSVN git_url git_branch svn_revision s).2) s = "") :
    _Snapshot w git_url git_branch svn_revision s =
      .ok (PyVal.pyNone, s, []) := by
  simp only [_Snapshot]
  rw [if_pos h]

/-- Witness for `snapshot_noop_on_no_new_history` on the quiet world. -/
theorem snapshot_noop_on_no_new_history_witness :
    _Snapshot quietWorld "http://git.chromium.org/chromium/src.git"
      "git-svn" none () = .ok (PyVal.pyNone, (), []) :=
  snapshot_noop_on_no_new_history quietWorld
    "http://git.chromium.org/chromium/src.git" "git-svn" none () rfl

/-- C1 failing input: no positional arguments, the environment marker
present, and `_Snapshot` completing without error — yet `main` returns 1,
because `_Snapshot` always evaluates to `None` (its body never returns a
value), so `if not _Snapshot(...)` is always taken and `return 0` is
unreachable. -/
theorem main_returns_one_despite_successful_snapshot :
    _Snapshot quietWorld "http://git.chromium.org/chromium/src.git"
      "git-svn" none () = .ok (PyVal.pyNone, (), []) ∧
    main quietWorld [] true "http://git.chromium.org/chromium/src.git"
      "git-svn" none () = .ok 1 ∧
    main quietWorld [] true "http://git.chromium.org/chromium/src.git"
      "git-svn" none () ≠ .ok 0 := by
  refine ⟨rfl, rfl, fun h => one_ne_zero (Except.ok.inj h)⟩

end MergeFromChromium
